import Mathlib

/-!
Verification of the content enrichment pipeline of the cpv2 repository.

The TypeScript sources are shallowly embedded: JavaScript numbers are
modelled by rationals (JSON transports only finite decimal numbers, so
NaN and infinities cannot reach the parsed payloads), remote agent
responses are modelled by an explicit response value handed to each
agent function, and the fallible TypeScript functions become functions
into Except.  Real numbers are used only for cosineSimilarity, whose
value involves a square root.
-/

namespace Cpv2

/-- JavaScript truthiness of the expression o or-else d for strings, as in
the pattern used by the sources, where the empty string is falsy. -/
def jsOrStr : Option String → String → String
  | none, d => d
  | some s, d => if s.isEmpty then d else s

/-- JavaScript or-else for numeric option values: 0 (and a missing value)
is falsy, so it is replaced by the default. -/
def jsOrQ : Option ℚ → ℚ → ℚ
  | none, d => d
  | some v, d => if v = 0 then d else v

/-- JavaScript or-else for integer option values: 0 is falsy. -/
def jsOrNat : Option Nat → Nat → Nat
  | none, d => d
  | some v, d => if v = 0 then d else v

/-- Lowercasing of one character as toLowerCase does on the ASCII range. -/
def jsCharToLower (c : Char) : Char :=
  if decide ('A'.toNat ≤ c.toNat) && decide (c.toNat ≤ 'Z'.toNat) then
    Char.ofNat (c.toNat + 32)
  else c

/-- String lowercasing, the toLowerCase calls of the sources. -/
def jsToLower (s : String) : String :=
  String.mk (s.toList.map jsCharToLower)

/-- Prefix truncation, the substring calls of the sources. -/
def jsTake (s : String) (n : Nat) : String :=
  String.mk (s.toList.take n)

/-- Whitespace trimming at both ends, the trim calls of the sources. -/
def jsTrim (s : String) : String :=
  String.mk (((s.toList.dropWhile Char.isWhitespace).reverse.dropWhile
    Char.isWhitespace).reverse)

/-- Outcome of one remote agent.generate call, after the shared
free-text-to-JSON extraction step performed by every agent:
the call can reject, the response text can contain no JSON object
(the regex match fails), or a JSON payload is extracted and parsed. -/
inductive AgentResponse (α : Type) where
  | generateFailed (msg : String)
  | noJson
  | parsed (v : α)
deriving DecidableEq

/-- The typed failure modes of the eight agent functions.  Each TypeScript
agent throws an Error with a message; the constructors name the distinct
throw sites of the sources. -/
inductive AgentFailure where
  | callFailed (msg : String)
  | noJsonFound
  | tagsNotArray
  | tooFewTags
  | notEnoughValidTags
  | missingSummaryFields
  | missingSeoFields
  | missingCategoryFields
  | missingSchemaFields
  | missingImagePromptField
  | invalidEmbeddingResponse
  | dimensionMismatch (n : Nat)
  | emptyContentAfterCleaning
  | invalidValidationStructure
deriving DecidableEq

/-- Return type of generateSummaries (src/agents/summaryAgent.ts). -/
structure Summaries where
  summary_short : String
  summary_medium : String
  summary_long : String
deriving DecidableEq

/-- Parsed JSON payload handed to generateSummaries; a missing field of
the JSON object is none. -/
structure SummariesPayload where
  summary_short : Option String
  summary_medium : Option String
  summary_long : Option String
deriving DecidableEq

/-- generateSummaries, src/agents/summaryAgent.ts: requires the three
summary fields to be truthy (present and nonempty) and returns them. -/
def generateSummaries : AgentResponse SummariesPayload → Except AgentFailure Summaries
  | .generateFailed msg => .error (.callFailed msg)
  | .noJson => .error .noJsonFound
  | .parsed p =>
    match p.summary_short, p.summary_medium, p.summary_long with
    | some a, some b, some c =>
      if a.isEmpty || b.isEmpty || c.isEmpty then .error .missingSummaryFields
      else .ok ⟨a, b, c⟩
    | _, _, _ => .error .missingSummaryFields

/-- Return type of generateSEOMetadata (src/agents/seoAgent.ts). -/
structure SEOMetadata where
  meta_title : String
  meta_description : String
  seo_keywords : String
deriving DecidableEq

/-- Parsed JSON payload handed to generateSEOMetadata. -/
structure SeoPayload where
  meta_title : Option String
  meta_description : Option String
  seo_keywords : Option String
deriving DecidableEq

/-- generateSEOMetadata, src/agents/seoAgent.ts: requires the three fields
to be truthy, then truncates meta_title to 60 and meta_description to 160
characters instead of rejecting. -/
def generateSEOMetadata : AgentResponse SeoPayload → Except AgentFailure SEOMetadata
  | .generateFailed msg => .error (.callFailed msg)
  | .noJson => .error .noJsonFound
  | .parsed p =>
    match p.meta_title, p.meta_description, p.seo_keywords with
    | some t, some d, some k =>
      if t.isEmpty || d.isEmpty || k.isEmpty then .error .missingSeoFields
      else
        .ok ⟨if t.length > 60 then jsTake t 60 else t,
             if d.length > 160 then jsTake d 160 else d,
             k⟩
    | _, _, _ => .error .missingSeoFields

/-- Return type of categorizeContent (categoryAgent). -/
structure CategoryResult where
  category : String
  confidence : ℚ
  reasoning : String
deriving DecidableEq

/-- Parsed JSON payload handed to categorizeContent; confidence is none
when the field is absent or not a number. -/
structure CategoryPayload where
  category : Option String
  confidence : Option ℚ
  reasoning : Option String
deriving DecidableEq

/-- categorizeContent, categoryAgent: requires a truthy category and a
numeric confidence, rescales a confidence above 1 by 100 and clamps it
into the interval from 0 to 1. -/
def categorizeContent : AgentResponse CategoryPayload → Except AgentFailure CategoryResult
  | .generateFailed msg => .error (.callFailed msg)
  | .noJson => .error .noJsonFound
  | .parsed p =>
    match p.category, p.confidence with
    | some cat, some conf =>
      if cat.isEmpty then .error .missingCategoryFields
      else
        let confidence := if conf > 1 then conf / 100 else conf
        .ok ⟨cat, min (max confidence 0) 1, jsOrStr p.reasoning "No reasoning provided"⟩
    | _, _ => .error .missingCategoryFields

/-- One character of the tag token shape, the character class of the
regular expression used by generateTags. -/
def tagCharOk (c : Char) : Bool :=
  (decide ('a'.toNat ≤ c.toNat) && decide (c.toNat ≤ 'z'.toNat)) ||
    (decide ('0'.toNat ≤ c.toNat) && decide (c.toNat ≤ '9'.toNat)) || c == '-'

/-- Test of the full tag regular expression: at least one character, all
characters lowercase alphanumeric or hyphen. -/
def matchesTagPattern (s : String) : Bool :=
  !s.isEmpty && s.toList.all tagCharOk

/-- generateTags, tagsAgent: requires result.tags to be an array of at
least 3 entries, truncates to 5, lowercases and trims every entry,
drops entries that fail the tag pattern, requires at least 3 surviving
entries and returns at most 5 of them.  No deduplication is performed. -/
def generateTags : AgentResponse (Option (List String)) → Except AgentFailure (List String)
  | .generateFailed msg => .error (.callFailed msg)
  | .noJson => .error .noJsonFound
  | .parsed none => .error .tagsNotArray
  | .parsed (some tags) =>
    if tags.length < 3 then .error .tooFewTags
    else
      let sliced := if tags.length > 5 then tags.take 5 else tags
      let normalizedTags :=
        (sliced.map (fun t => jsTrim (jsToLower t))).filter
          (fun t => t.length > 0 && matchesTagPattern t)
      if normalizedTags.length < 3 then .error .notEnoughValidTags
      else .ok (normalizedTags.take 5)

/-- Schema.org object produced by generateSchemaOrgData; the fields other
than the context, type and datePublished keys are carried opaquely. -/
structure SchemaJson where
  context : String
  type : String
  datePublished : String
  extraFields : List (String × String)
deriving DecidableEq

/-- Parsed JSON payload handed to generateSchemaOrgData. -/
structure SchemaPayload where
  context : Option String
  type : Option String
  datePublished : Option String
  extraFields : List (String × String)
deriving DecidableEq

/-- generateSchemaOrgData, src/agents/schemaAgent.ts: requires truthy
context and type keys, forces the context to the schema.org URL and
defaults datePublished to the current date (passed here as today). -/
def generateSchemaOrgData (today : String) :
    AgentResponse SchemaPayload → Except AgentFailure SchemaJson
  | .generateFailed msg => .error (.callFailed msg)
  | .noJson => .error .noJsonFound
  | .parsed p =>
    match p.context, p.type with
    | some ctx, some ty =>
      if ctx.isEmpty || ty.isEmpty then .error .missingSchemaFields
      else
        .ok ⟨"https://schema.org", ty,
             (match p.datePublished with
              | some d => if d.isEmpty then today else d
              | none => today),
             p.extraFields⟩
    | _, _ => .error .missingSchemaFields

/-- Return type of generateImagePrompt (imagePromptAgent). -/
structure ImagePromptResult where
  image_prompt : String
  style_notes : String
deriving DecidableEq

/-- Parsed JSON payload handed to generateImagePrompt. -/
structure ImagePromptPayload where
  image_prompt : Option String
  style_notes : Option String
deriving DecidableEq

/-- generateImagePrompt, imagePromptAgent: requires a truthy image_prompt,
truncates it to 200 characters, and defaults the style notes. -/
def generateImagePrompt : AgentResponse ImagePromptPayload → Except AgentFailure ImagePromptResult
  | .generateFailed msg => .error (.callFailed msg)
  | .noJson => .error .noJsonFound
  | .parsed p =>
    match p.image_prompt with
    | some ip =>
      if ip.isEmpty then .error .missingImagePromptField
      else
        .ok ⟨if ip.length > 200 then jsTake ip 200 else ip,
             jsOrStr p.style_notes "No style notes provided"⟩
    | none => .error .missingImagePromptField

/-- One step of the whitespace collapsing of the embeddings agent: every
maximal run of whitespace becomes a single space, as the global regex
replacement does. -/
def collapseWhitespaceAux : List Char → List Char
  | [] => []
  | c :: rest =>
    match rest with
    | [] => [if c.isWhitespace then ' ' else c]
    | c2 :: _ =>
      if c.isWhitespace && c2.isWhitespace then collapseWhitespaceAux rest
      else (if c.isWhitespace then ' ' else c) :: collapseWhitespaceAux rest

/-- Content cleaning of generateEmbeddings: collapse whitespace runs,
trim, and keep at most 30000 characters. -/
def cleanContent (s : String) : String :=
  jsTake (jsTrim (String.mk (collapseWhitespaceAux s.toList))) 30000

/-- generateEmbeddings, src/agents/embeddingsAgent.ts: rejects content
that is empty after cleaning, rejects a response without an embedding
array, and rejects an embedding whose length is not 3072.  The response
vector is modelled as rationals because the provider payload travels as
JSON, which carries only finite numbers. -/
def generateEmbeddings (markdownContent : String) (resp : Option (List ℚ)) :
    Except AgentFailure (List ℚ) :=
  let cleanedContent := cleanContent markdownContent
  if cleanedContent.isEmpty then .error .emptyContentAfterCleaning
  else
    match resp with
    | none => .error .invalidEmbeddingResponse
    | some embedding =>
      if embedding.length ≠ 3072 then .error (.dimensionMismatch embedding.length)
      else .ok embedding

/-- One scored dimension of the validation report. -/
structure DimensionReport where
  score : ℚ
  feedback : String
deriving DecidableEq

/-- ValidationReport interface of the validator agent. -/
structure ValidationReport where
  summary : DimensionReport
  seo : DimensionReport
  categorization : DimensionReport
  schema : DimensionReport
  image_prompt : DimensionReport
  overall_feedback : String
  issues : List String
  recommendations : List String
deriving DecidableEq

/-- Parsed JSON payload handed to validateMetadata: quality_score is none
when absent or not a number, passed is none when absent or not a boolean,
validation_report is none when absent (a present JSON object is truthy). -/
structure ValidatorPayload where
  quality_score : Option ℚ
  passed : Option Bool
  validation_report : Option ValidationReport
deriving DecidableEq

/-- ValidationResult interface of the validator agent. -/
structure ValidationResult where
  quality_score : ℚ
  passed : Bool
  validation_report : ValidationReport
deriving DecidableEq

/-- The aggregated metadata object handed to validateMetadata by the
pipeline. -/
structure MetadataBundle where
  summaries : Summaries
  seo : SEOMetadata
  category : CategoryResult
  tags : List String
  schema : SchemaJson
  imagePrompt : ImagePromptResult
deriving DecidableEq

/-- validateMetadata, validatorAgent: checks the response structure, then
clamps the score into the interval from 0 to 100 and recomputes the
passed flag as score at least 70, discarding the proposed flag. -/
def validateMetadata (originalContent : String) (metadata : MetadataBundle)
    (resp : AgentResponse ValidatorPayload) : Except AgentFailure ValidationResult :=
  match resp with
  | .generateFailed msg => .error (.callFailed msg)
  | .noJson => .error .noJsonFound
  | .parsed r =>
    match r.quality_score, r.passed, r.validation_report with
    | some q, some _, some report =>
      let clamped := min (max q 0) 100
      .ok ⟨clamped, decide (clamped ≥ 70), report⟩
    | _, _, _ => .error .invalidValidationStructure

/-- The eight capability kinds of the pipeline, named after the agents
invoked by processMarkdownWithAI. -/
inductive Capability where
  | summary
  | seo
  | category
  | tags
  | schema
  | imagePrompt
  | embeddings
  | validator
deriving DecidableEq

/-- The COST_ESTIMATES table of src/services/aiPipeline.ts. -/
structure CostEstimates where
  summary : ℚ
  seo : ℚ
  category : ℚ
  tags : ℚ
  schema : ℚ
  imagePrompt : ℚ
  embeddings : ℚ
  validator : ℚ
deriving DecidableEq

/-- Static per-agent cost estimates in USD, src/services/aiPipeline.ts. -/
def COST_ESTIMATES : CostEstimates :=
  ⟨0.001, 0.002, 0.003, 0.003, 0.02, 0.01, 0.013, 0.02⟩

/-- AIPipelineResult interface of src/services/aiPipeline.ts. -/
structure AIPipelineResult where
  summary_short : String
  summary_medium : String
  summary_long : String
  meta_title : String
  meta_description : String
  seo_keywords : String
  category : String
  category_confidence : ℚ
  tags : List String
  schema_json : SchemaJson
  image_prompt : String
  embedding : List ℚ
  quality_score : ℚ
  validation_report : ValidationReport
  processing_time_ms : ℚ
  estimated_cost_usd : ℚ
deriving DecidableEq

/-- The error surfaced by processMarkdownWithAI: the catch block wraps the
originating error of the failing capability. -/
inductive PipelineError where
  | pipelineFailed (c : Capability) (e : AgentFailure)
deriving DecidableEq

/-- One remote environment for a pipeline run: the response each agent
would receive from its model, the current date used by the schema agent,
and the wall-clock duration, all external to the pipeline logic. -/
structure AgentEnv where
  summariesResp : AgentResponse SummariesPayload
  seoResp : AgentResponse SeoPayload
  categoryResp : AgentResponse CategoryPayload
  tagsResp : AgentResponse (Option (List String))
  schemaResp : AgentResponse SchemaPayload
  imagePromptResp : AgentResponse ImagePromptPayload
  embeddingResp : Option (List ℚ)
  validatorResp : AgentResponse ValidatorPayload
  today : String
  elapsedMs : ℚ
deriving DecidableEq

instance {ε α : Type} [DecidableEq ε] [DecidableEq α] : DecidableEq (Except ε α) := fun
  | .error e, .error f => decidable_of_iff (e = f) (by simp)
  | .error _, .ok _ => .isFalse (by simp)
  | .ok _, .error _ => .isFalse (by simp)
  | .ok a, .ok b => decidable_of_iff (a = b) (by simp)

/-- Observable outcome of one pipeline run: the returned value or thrown
error, the capabilities whose remote call was started, in program order,
and the value of the local totalCost accumulator when the function
returned or threw. -/
structure RunOutcome where
  result : Except PipelineError AIPipelineResult
  invoked : List Capability
  cost : ℚ
deriving DecidableEq

/-- processMarkdownWithAI, src/services/aiPipeline.ts.  Phase 1 starts all
four basic-metadata agents (Promise.all invokes every one of them); if any
fails the run throws that failure and Phase 2 and Phase 3 never start.
Phase 2 likewise starts its three agents only after Phase 1 succeeded, and
the validator runs only after Phase 2.  Promise.all settles with the
rejection of the earliest failing member, modelled here in argument order.
Cost constants are added to totalCost only after each phase succeeds. -/
def processMarkdownWithAI (env : AgentEnv) (markdownContent : String) : RunOutcome :=
  let phase1Invoked : List Capability := [.summary, .seo, .category, .tags]
  match generateSummaries env.summariesResp, generateSEOMetadata env.seoResp,
      categorizeContent env.categoryResp, generateTags env.tagsResp with
  | .ok summaries, .ok seo, .ok categoryResult, .ok tags =>
    let cost1 := COST_ESTIMATES.summary + COST_ESTIMATES.seo +
      COST_ESTIMATES.category + COST_ESTIMATES.tags
    match generateSchemaOrgData env.today env.schemaResp,
        generateImagePrompt env.imagePromptResp,
        generateEmbeddings markdownContent env.embeddingResp with
    | .ok schema, .ok imagePrompt, .ok embedding =>
      let cost2 := cost1 + COST_ESTIMATES.schema + COST_ESTIMATES.imagePrompt +
        COST_ESTIMATES.embeddings
      match validateMetadata markdownContent
          ⟨summaries, seo, categoryResult, tags, schema, imagePrompt⟩
          env.validatorResp with
      | .ok validation =>
        ⟨.ok ⟨summaries.summary_short, summaries.summary_medium, summaries.summary_long,
              seo.meta_title, seo.meta_description, seo.seo_keywords,
              categoryResult.category, categoryResult.confidence,
              tags, schema, imagePrompt.image_prompt, embedding,
              validation.quality_score, validation.validation_report,
              env.elapsedMs, cost2 + COST_ESTIMATES.validator⟩,
         phase1Invoked ++ [.schema, .imagePrompt, .embeddings, .validator],
         cost2 + COST_ESTIMATES.validator⟩
      | .error e =>
        ⟨.error (.pipelineFailed .validator e),
         phase1Invoked ++ [.schema, .imagePrompt, .embeddings, .validator], cost2⟩
    | .error e, _, _ =>
      ⟨.error (.pipelineFailed .schema e),
       phase1Invoked ++ [.schema, .imagePrompt, .embeddings], cost1⟩
    | _, .error e, _ =>
      ⟨.error (.pipelineFailed .imagePrompt e),
       phase1Invoked ++ [.schema, .imagePrompt, .embeddings], cost1⟩
    | _, _, .error e =>
      ⟨.error (.pipelineFailed .embeddings e),
       phase1Invoked ++ [.schema, .imagePrompt, .embeddings], cost1⟩
  | .error e, _, _, _ => ⟨.error (.pipelineFailed .summary e), phase1Invoked, 0⟩
  | _, .error e, _, _ => ⟨.error (.pipelineFailed .seo e), phase1Invoked, 0⟩
  | _, _, .error e, _ => ⟨.error (.pipelineFailed .category e), phase1Invoked, 0⟩
  | _, _, _, .error e => ⟨.error (.pipelineFailed .tags e), phase1Invoked, 0⟩

/-- The earliest failing Phase 1 capability of a run, with its failure, in
the order of the Promise.all argument list; none when all four Phase 1
capabilities succeed. -/
def firstPhase1Failure (env : AgentEnv) : Option (Capability × AgentFailure) :=
  match generateSummaries env.summariesResp, generateSEOMetadata env.seoResp,
      categorizeContent env.categoryResp, generateTags env.tagsResp with
  | .ok _, .ok _, .ok _, .ok _ => none
  | .error e, _, _, _ => some (.summary, e)
  | _, .error e, _, _ => some (.seo, e)
  | _, _, .error e, _ => some (.category, e)
  | _, _, _, .error e => some (.tags, e)

/-- Error surfaced by the process route: the zod schema rejection or a
wrapped pipeline error. -/
inductive RouteError where
  | validationError
  | pipelineError (e : PipelineError)
deriving DecidableEq

/-- Outcome of the process route, with the same observables as a run. -/
structure RouteOutcome where
  result : Except RouteError AIPipelineResult
  invoked : List Capability
  cost : ℚ
deriving DecidableEq

/-- The POST process route of src/routes/aiRoutes.ts: the zod schema
requires content of at least 10 characters and rejects shorter content
before processMarkdownWithAI is called, so no capability is invoked and
no cost is accrued for such input. -/
def processRoute (env : AgentEnv) (content : String) : RouteOutcome :=
  if content.length < 10 then ⟨.error .validationError, [], 0⟩
  else
    let out := processMarkdownWithAI env content
    match out.result with
    | .ok r => ⟨.ok r, out.invoked, out.cost⟩
    | .error e => ⟨.error (.pipelineError e), out.invoked, out.cost⟩

/-- Return type of estimateProcessingCost. -/
structure CostEstimate where
  total : ℚ
  perModule : ℚ
  breakdown : List (String × ℚ)
deriving DecidableEq

/-- Object.values of the cost table, in declaration order. -/
def costValues (c : CostEstimates) : List ℚ :=
  [c.summary, c.seo, c.category, c.tags, c.schema, c.imagePrompt, c.embeddings, c.validator]

/-- The cost table as the key-to-cost record returned in the breakdown. -/
def costBreakdown (c : CostEstimates) : List (String × ℚ) :=
  [("summary", c.summary), ("seo", c.seo), ("category", c.category), ("tags", c.tags),
   ("schema", c.schema), ("imagePrompt", c.imagePrompt),
   ("embeddings", c.embeddings), ("validator", c.validator)]

/-- estimateProcessingCost, src/services/aiPipeline.ts: a pure function of
the document count, summing the static cost table once per module. -/
def estimateProcessingCost (contentCount : ℕ) : CostEstimate :=
  let perModuleCost := (costValues COST_ESTIMATES).foldl (· + ·) 0
  ⟨perModuleCost * (contentCount : ℚ), perModuleCost, costBreakdown COST_ESTIMATES⟩

/-- The single throw site of cosineSimilarity. -/
inductive CosineError where
  | mismatchedDimensions
deriving DecidableEq

/-- The accumulating loop of cosineSimilarity: the dot product of two
equal-length vectors; normA and normB are the dot products of each vector
with itself. -/
def dotProduct (a b : List ℝ) : ℝ :=
  (List.zipWith (· * ·) a b).sum

/-- cosineSimilarity, src/agents/embeddingsAgent.ts: rejects vectors of
different lengths, otherwise the dot product divided by the product of
the two norms.  Real numbers stand in for the floating-point values. -/
noncomputable def cosineSimilarity (a b : List ℝ) : Except CosineError ℝ :=
  if a.length ≠ b.length then .error .mismatchedDimensions
  else .ok (dotProduct a b / (Real.sqrt (dotProduct a a) * Real.sqrt (dotProduct b b)))

/-- One row of the modules table, the columns returned by the vector
search function of migration 004. -/
structure ModuleRecord where
  id : String
  title : String
  slug : String
  category : String
  tags : List String
  summary_short : String
  summary_medium : String
  summary_long : String
  meta_title : String
  meta_description : String
  seo_keywords : List String
  schema_json : SchemaJson
  image_prompt : String
  quality_score : ℚ
  validation_report : ValidationReport
  owner : String
  source_url : Option String
  source_label : Option String
  webflow_id : Option String
  latest_version : ℕ
  status : String
  created_at : String
  updated_at : String
deriving DecidableEq

/-- One row of the module_embeddings table. -/
structure EmbeddingRow where
  module_id : String
  embedding : List ℚ
deriving DecidableEq

/-- The INNER JOIN of modules with module_embeddings on the module id. -/
def innerJoinEmbeddings (modules : List ModuleRecord) (embeddings : List EmbeddingRow) :
    List (ModuleRecord × List ℚ) :=
  modules.flatMap (fun m =>
    (embeddings.filter (fun e => e.module_id == m.id)).map (fun e => (m, e.embedding)))

/-- The ORDER BY relation of the search query: ascending distance of the
stored embedding to the query embedding. -/
def distAscending (dist : List ℚ → List ℚ → ℚ) (query : List ℚ)
    (p q : ModuleRecord × List ℚ) : Prop :=
  dist p.2 query ≤ dist q.2 query

instance (dist : List ℚ → List ℚ → ℚ) (query : List ℚ) :
    DecidableRel (distAscending dist query) :=
  fun p q => inferInstanceAs (Decidable (dist p.2 query ≤ dist q.2 query))

instance (dist : List ℚ → List ℚ → ℚ) (query : List ℚ) :
    IsTotal (ModuleRecord × List ℚ) (distAscending dist query) :=
  ⟨fun p q => le_total (dist p.2 query) (dist q.2 query)⟩

instance (dist : List ℚ → List ℚ → ℚ) (query : List ℚ) :
    IsTrans (ModuleRecord × List ℚ) (distAscending dist query) :=
  ⟨fun _ _ _ hab hbc => le_trans hab hbc⟩

/-- DEFAULT value of match_threshold in migration 004. -/
def defaultMatchThreshold : ℚ := 0.5

/-- DEFAULT value of match_count in migration 004. -/
def defaultMatchCount : ℕ := 10

/-- search_modules_by_embedding, migrations/004_add_vector_search.sql:
join modules with their embeddings, keep the rows whose similarity
(one minus the distance of the stored embedding to the query) strictly
exceeds the threshold, order by ascending distance, return at most
match_count rows together with their similarity.  The pgvector cosine
distance operator is an external collaborator, abstracted as dist. -/
def search_modules_by_embedding (dist : List ℚ → List ℚ → ℚ)
    (modules : List ModuleRecord) (embeddings : List EmbeddingRow)
    (query_embedding : List ℚ) (match_threshold : ℚ) (match_count : ℕ) :
    List (ModuleRecord × ℚ) :=
  let joined := innerJoinEmbeddings modules embeddings
  let kept := joined.filter (fun p => decide (match_threshold < 1 - dist p.2 query_embedding))
  let sorted := kept.insertionSort (distAscending dist query_embedding)
  (sorted.take match_count).map (fun p => (p.1, 1 - dist p.2 query_embedding))

/-- SemanticSearchInput interface of src/services/moduleService.ts. -/
structure SemanticSearchInput where
  query : String
  limit : Option ℕ
  threshold : Option ℚ
deriving DecidableEq

/-- The limit actually used by semanticSearch: input.limit or-else 10. -/
def searchLimitOf (input : SemanticSearchInput) : ℕ :=
  jsOrNat input.limit 10

/-- The threshold actually used by semanticSearch: input.threshold or-else 0.5. -/
def searchThresholdOf (input : SemanticSearchInput) : ℚ :=
  jsOrQ input.threshold 0.5

/-- semanticSearch, src/services/moduleService.ts: embed the query text
through generateEmbeddings, substitute the defaults for falsy limit and
threshold values, and call the vector search function. -/
def semanticSearch (dist : List ℚ → List ℚ → ℚ)
    (modules : List ModuleRecord) (embeddings : List EmbeddingRow)
    (queryEmbeddingResp : Option (List ℚ)) (input : SemanticSearchInput) :
    Except AgentFailure (List ModuleRecord) :=
  match generateEmbeddings input.query queryEmbeddingResp with
  | .error e => .error e
  | .ok queryEmbedding =>
    .ok ((search_modules_by_embedding dist modules embeddings queryEmbedding
      (searchThresholdOf input) (searchLimitOf input)).map Prod.fst)

/-- The slug replacement: every maximal run of characters outside the
lowercase alphanumeric class becomes a single hyphen. -/
def slugReplaceAux : List Char → List Char
  | [] => []
  | c :: rest =>
    let keep := (decide ('a'.toNat ≤ c.toNat) && decide (c.toNat ≤ 'z'.toNat)) ||
      (decide ('0'.toNat ≤ c.toNat) && decide (c.toNat ≤ '9'.toNat))
    match rest with
    | [] => [if keep then c else '-']
    | c2 :: _ =>
      let keep2 := (decide ('a'.toNat ≤ c2.toNat) && decide (c2.toNat ≤ 'z'.toNat)) ||
        (decide ('0'.toNat ≤ c2.toNat) && decide (c2.toNat ≤ '9'.toNat))
      if !keep && !keep2 then slugReplaceAux rest
      else (if keep then c else '-') :: slugReplaceAux rest

/-- generateSlug, src/services/moduleService.ts: lowercase the title,
replace runs of other characters by single hyphens, strip hyphens at the
ends. -/
def generateSlug (title : String) : String :=
  let replaced := slugReplaceAux (jsToLower title).toList
  String.mk (((replaced.dropWhile (· == '-')).reverse.dropWhile (· == '-')).reverse)

/-- CreateModuleInput interface of src/services/moduleService.ts. -/
structure CreateModuleInput where
  title : String
  markdownContent : String
  owner : Option String
  source_url : Option String
  source_label : Option String
deriving DecidableEq

/-- The moduleData object inserted into the modules table by
createModule. -/
structure ModuleInsertRow where
  title : String
  slug : String
  category : String
  tags : List String
  summary_short : String
  summary_medium : String
  summary_long : String
  meta_title : String
  meta_description : String
  seo_keywords : List String
  schema_json : SchemaJson
  image_prompt : String
  quality_score : ℚ
  validation_report : ValidationReport
  owner : String
  source_url : Option String
  source_label : Option String
  latest_version : ℕ
  status : String
deriving DecidableEq

/-- One database write attempted by createModule, in program order. -/
inductive DbOp where
  | insertModule (row : ModuleInsertRow)
  | insertEmbedding (module_id : String) (embedding : List ℚ)
  | insertVersion (module_id : String) (version : ℕ) (changelog : String)
deriving DecidableEq

/-- The throw sites of createModule. -/
inductive CreateModuleError where
  | pipelineError (e : PipelineError)
  | qualityBelowThreshold (score : ℚ)
  | moduleInsertFailed (msg : String)
deriving DecidableEq

/-- Database collaborator outcomes for createModule: the insert into the
modules table either errors or returns the created row.  The embedding
and version inserts only warn on failure, so their outcomes do not change
control flow and are omitted. -/
structure DbEnv where
  moduleInsert : Except String ModuleRecord
deriving DecidableEq

/-- createModule, src/services/moduleService.ts: run the pipeline, throw
when the quality score is below 70 before attempting any insert, then
insert the module row, the embedding row and the initial version row. -/
def createModule (env : AgentEnv) (db : DbEnv) (input : CreateModuleInput) :
    Except CreateModuleError (ModuleRecord × AIPipelineResult) × List DbOp :=
  let out := processMarkdownWithAI env input.markdownContent
  match out.result with
  | .error e => (.error (.pipelineError e), [])
  | .ok aiResult =>
    if aiResult.quality_score < 70 then
      (.error (.qualityBelowThreshold aiResult.quality_score), [])
    else
      let slug := generateSlug input.title
      let moduleData : ModuleInsertRow :=
        ⟨input.title, slug, aiResult.category, aiResult.tags,
         aiResult.summary_short, aiResult.summary_medium, aiResult.summary_long,
         aiResult.meta_title, aiResult.meta_description,
         (aiResult.seo_keywords.splitOn ",").map (fun k => jsTrim k),
         aiResult.schema_json, aiResult.image_prompt,
         aiResult.quality_score, aiResult.validation_report,
         jsOrStr input.owner "Keith Armstrong",
         input.source_url, input.source_label, 1, "draft"⟩
      match db.moduleInsert with
      | .error msg => (.error (.moduleInsertFailed msg), [.insertModule moduleData])
      | .ok module =>
        (.ok (module, aiResult),
         [.insertModule moduleData,
          .insertEmbedding module.id aiResult.embedding,
          .insertVersion module.id 1 "Initial version"])

/-- Quality score of a successful run, none when the run failed. -/
def pipelineScore (env : AgentEnv) (content : String) : Option ℚ :=
  match (processMarkdownWithAI env content).result with
  | .ok r => some r.quality_score
  | .error _ => none

/-- A concrete validation report, used by the evaluation fixtures. -/
def testReport : ValidationReport :=
  ⟨⟨22, "good"⟩, ⟨24, "good"⟩, ⟨18, "good"⟩, ⟨13, "good"⟩, ⟨14, "good"⟩,
   "solid metadata", [], ["none"]⟩

/-- A remote environment in which every agent call succeeds with a
well-formed response. -/
def allOkEnv : AgentEnv :=
  ⟨.parsed ⟨some "Short summary.", some "Medium summary with more detail.",
     some "Long summary paragraph with comprehensive detail for testing."⟩,
   .parsed ⟨some "Test Title", some "Test description.", some "alpha, beta, gamma"⟩,
   .parsed ⟨some "Technology", some 1, some "clear fit"⟩,
   .parsed (some ["ai", "ml", "data"]),
   .parsed ⟨some "https://schema.org", some "Article", some "2025-01-01", []⟩,
   .parsed ⟨some "Isometric illustration of data pipelines in vibrant colors", some "modern"⟩,
   some (List.replicate 3072 1),
   .parsed ⟨some 85, some true, some testReport⟩,
   "2025-01-01", 0⟩

/-- The all-success environment, except that the tags agent returns JSON
whose tags field is not an array. -/
def envTagsFail : AgentEnv :=
  { allOkEnv with tagsResp := .parsed none }

/-- The all-success environment, except that the validator judges the
metadata at score 50. -/
def envLowScore : AgentEnv :=
  { allOkEnv with validatorResp := .parsed ⟨some 50, some true, some testReport⟩ }

/-- A concrete schema object for fixtures. -/
def testSchema : SchemaJson :=
  ⟨"https://schema.org", "Article", "2025-01-01", []⟩

/-- A concrete module row for fixtures. -/
def testModuleA : ModuleRecord :=
  ⟨"idA", "Module A", "module-a", "Technology", ["ai"], "s", "m", "l", "mt", "md",
   ["kw"], testSchema, "prompt", 80, testReport, "owner", none, none, none, 1,
   "draft", "2025-01-01", "2025-01-01"⟩

/-- The embedding row of the fixture module. -/
def testEmbRowA : EmbeddingRow :=
  ⟨"idA", [1]⟩

/-- A concrete computable distance function standing in for the pgvector
operator in evaluation fixtures. -/
def l1dist (a b : List ℚ) : ℚ :=
  (List.zipWith (fun x y => |x - y|) a b).sum

/-- A database collaborator that accepts the module insert. -/
def testDb : DbEnv :=
  ⟨.ok testModuleA⟩

/-- A concrete createModule input. -/
def testCreateInput : CreateModuleInput :=
  ⟨"My Module", "# A test document with content", none, none, none⟩

/-- A concrete metadata bundle for evaluation fixtures. -/
def testBundle : MetadataBundle :=
  ⟨⟨"s", "m", "l"⟩, ⟨"t", "d", "k"⟩, ⟨"Technology", 9 / 10, "fits"⟩,
   ["ai"], testSchema, ⟨"prompt", "notes"⟩⟩

lemma validateMetadata_ok_spec (content : String) (md : MetadataBundle)
    (resp : AgentResponse ValidatorPayload) (r : ValidationResult)
    (h : validateMetadata content md resp = .ok r) :
    0 ≤ r.quality_score ∧ r.quality_score ≤ 100 ∧
      (r.passed = true ↔ 70 ≤ r.quality_score) := by
  cases resp with
  | generateFailed m => simp [validateMetadata] at h
  | noJson => simp [validateMetadata] at h
  | parsed p =>
    obtain ⟨q, pa, rep⟩ := p
    cases q with
    | none => simp [validateMetadata] at h
    | some qv =>
      cases pa with
      | none => simp [validateMetadata] at h
      | some pv =>
        cases rep with
        | none => simp [validateMetadata] at h
        | some repv =>
          simp only [validateMetadata, Except.ok.injEq] at h
          subst h
          refine ⟨le_min (le_max_right qv 0) (by norm_num), min_le_right _ _, ?_⟩
          simp [ValidationResult.passed, ge_iff_le, decide_eq_true_iff]

lemma processMarkdownWithAI_ok_validation (env : AgentEnv) (content : String)
    (r : AIPipelineResult) (h : (processMarkdownWithAI env content).result = .ok r) :
    ∃ (md : MetadataBundle) (v : ValidationResult),
      validateMetadata content md env.validatorResp = .ok v ∧
      r.quality_score = v.quality_score := by
  rw [processMarkdownWithAI] at h
  cases h1 : generateSummaries env.summariesResp with
  | error e1 => simp [h1] at h
  | ok s1 =>
  cases h2 : generateSEOMetadata env.seoResp with
  | error e2 => simp [h1, h2] at h
  | ok s2 =>
  cases h3 : categorizeContent env.categoryResp with
  | error e3 => simp [h1, h2, h3] at h
  | ok s3 =>
  cases h4 : generateTags env.tagsResp with
  | error e4 => simp [h1, h2, h3, h4] at h
  | ok s4 =>
  cases h5 : generateSchemaOrgData env.today env.schemaResp with
  | error e5 => simp [h1, h2, h3, h4, h5] at h
  | ok s5 =>
  cases h6 : generateImagePrompt env.imagePromptResp with
  | error e6 => simp [h1, h2, h3, h4, h5, h6] at h
  | ok s6 =>
  cases h7 : generateEmbeddings content env.embeddingResp with
  | error e7 => simp [h1, h2, h3, h4, h5, h6, h7] at h
  | ok s7 =>
  cases h8 : validateMetadata content ⟨s1, s2, s3, s4, s5, s6⟩ env.validatorResp with
  | error e8 => simp [h1, h2, h3, h4, h5, h6, h7, h8] at h
  | ok v8 =>
    simp only [h1, h2, h3, h4, h5, h6, h7, h8, Except.ok.injEq] at h
    exact ⟨⟨s1, s2, s3, s4, s5, s6⟩, v8, h8, by rw [← h]⟩

/-- Claim C1: for every input document and every validator response, a
result accepted by validateMetadata has its quality score clamped into
the interval from 0 to 100, its passed flag recomputed as score at least
70 regardless of the pass flag the judgment proposed, and a successful
pipeline result inherits a quality score in that interval. -/
theorem validateMetadata_clamps_and_recomputes_passed :
    (∀ (content : String) (md : MetadataBundle) (resp : AgentResponse ValidatorPayload)
        (r : ValidationResult), validateMetadata content md resp = .ok r →
        0 ≤ r.quality_score ∧ r.quality_score ≤ 100 ∧
          (r.passed = true ↔ 70 ≤ r.quality_score)) ∧
    (∀ (content : String) (md : MetadataBundle) (q : ℚ) (p1 p2 : Bool)
        (rep : ValidationReport),
        validateMetadata content md (.parsed ⟨some q, some p1, some rep⟩) =
          validateMetadata content md (.parsed ⟨some q, some p2, some rep⟩)) ∧
    (∀ (env : AgentEnv) (content : String) (r : AIPipelineResult),
        (processMarkdownWithAI env content).result = .ok r →
        0 ≤ r.quality_score ∧ r.quality_score ≤ 100) := by
  refine ⟨validateMetadata_ok_spec, fun content md q p1 p2 rep => rfl,
    fun env content r h => ?_⟩
  obtain ⟨md, v, hv, hq⟩ := processMarkdownWithAI_ok_validation env content r h
  obtain ⟨h0, h100, _⟩ := validateMetadata_ok_spec content md env.validatorResp v hv
  exact ⟨hq ▸ h0, hq ▸ h100⟩

/-- Witness for claim C1: a judgment proposing score 150 and passed false
is accepted as score 100 and passed true. -/
theorem validateMetadata_clamps_witness :
    0 ≤ (⟨100, true, testReport⟩ : ValidationResult).quality_score ∧
    (⟨100, true, testReport⟩ : ValidationResult).quality_score ≤ 100 ∧
    ((⟨100, true, testReport⟩ : ValidationResult).passed = true ↔
      70 ≤ (⟨100, true, testReport⟩ : ValidationResult).quality_score) :=
  validateMetadata_clamps_and_recomputes_passed.1 "" testBundle
    (.parsed ⟨some 150, some false, some testReport⟩) ⟨100, true, testReport⟩ (by decide)

set_option maxRecDepth 8000 in
/-- Claim C2, counterexample: processMarkdownWithAI called on the empty
document with an otherwise successful environment starts all four Phase 1
capabilities (and the Phase 2 ones), accrues the Phase 1 cost, and fails
only when the embeddings agent rejects the cleaned-empty content; it does
not reject empty input before invoking capabilities. -/
theorem processMarkdownWithAI_empty_input_invokes_capabilities :
    Capability.summary ∈ (processMarkdownWithAI allOkEnv "").invoked ∧
    (processMarkdownWithAI allOkEnv "").invoked ≠ [] ∧
    (processMarkdownWithAI allOkEnv "").cost ≠ 0 ∧
    (processMarkdownWithAI allOkEnv "").result =
      .error (.pipelineFailed .embeddings .emptyContentAfterCleaning) := by
  refine ⟨by decide, by decide, ?_, by decide⟩
  have h : (processMarkdownWithAI allOkEnv "").cost =
      COST_ESTIMATES.summary + COST_ESTIMATES.seo + COST_ESTIMATES.category +
        COST_ESTIMATES.tags := rfl
  rw [h]
  norm_num [COST_ESTIMATES]

/-- Claim C2 (amended): the below-minimum-length rejection happens in the
HTTP route, whose schema rejects content shorter than 10 characters
before the pipeline is called, so no capability is invoked and no cost is
accrued there. -/
theorem route_rejects_short_content_before_pipeline
    (env : AgentEnv) (content : String) (h : content.length < 10) :
    (processRoute env content).result = .error .validationError ∧
    (processRoute env content).invoked = [] ∧
    (processRoute env content).cost = 0 := by
  unfold processRoute
  rw [if_pos h]
  exact ⟨rfl, rfl, rfl⟩

/-- Witness for the amended claim C2: the empty document is rejected by
the route with no capability invoked and zero cost. -/
theorem route_rejects_short_content_witness :
    (processRoute allOkEnv "").result = .error .validationError ∧
    (processRoute allOkEnv "").invoked = [] ∧
    (processRoute allOkEnv "").cost = 0 :=
  route_rejects_short_content_before_pipeline allOkEnv "" (by decide)

/-- Claim C3, counterexample: generateTags accepts a response whose tags
are not pairwise distinct and returns the duplicate entries unchanged; no
deduplication is performed. -/
theorem generateTags_duplicates_counterexample :
    generateTags (.parsed (some ["ai", "ai", "ml"])) = .ok ["ai", "ai", "ml"] ∧
    ¬ (["ai", "ai", "ml"] : List String).Nodup := by
  refine ⟨?_, ?_⟩ <;> decide

/-- Claim C3 (amended): every tag list accepted by generateTags has
between 3 and 5 entries and every entry matches the lowercase tag
pattern; the entries need not be pairwise distinct. -/
theorem generateTags_count_and_format (resp : AgentResponse (Option (List String)))
    (tags : List String) (h : generateTags resp = .ok tags) :
    3 ≤ tags.length ∧ tags.length ≤ 5 ∧ ∀ t ∈ tags, matchesTagPattern t = true := by
  cases resp with
  | generateFailed m => simp [generateTags] at h
  | noJson => simp [generateTags] at h
  | parsed o =>
    cases o with
    | none => simp [generateTags] at h
    | some l =>
      simp only [generateTags] at h
      split at h
      · simp at h
      · split at h
        all_goals split at h
        all_goals try exact Except.noConfusion h
        all_goals
          rename_i hn3
          rw [Except.ok.injEq] at h
          subst h
          refine ⟨?_, ?_, ?_⟩
          · rw [List.length_take]
            exact le_min (by norm_num) (not_lt.mp hn3)
          · rw [List.length_take]
            exact min_le_left _ _
          · intro t ht
            have hmem := List.mem_of_mem_take ht
            have hb := (List.mem_filter.mp hmem).2
            simp only [Bool.and_eq_true] at hb
            exact hb.2

/-- Witness for the amended claim C3: a four-entry response with one
malformed entry normalizes to three well-formed tags. -/
theorem generateTags_count_and_format_witness :
    3 ≤ (["web-dev", "ai", "ml"] : List String).length ∧
    (["web-dev", "ai", "ml"] : List String).length ≤ 5 ∧
    ∀ t ∈ (["web-dev", "ai", "ml"] : List String), matchesTagPattern t = true :=
  generateTags_count_and_format (.parsed (some ["Web-Dev", "AI", "ml", "bad tag."]))
    ["web-dev", "ai", "ml"] (by decide)

/-- Claim C4: whenever at least one Phase 1 capability fails (the earliest
failure in Promise.all order being that of capability c), the run
terminates with that capability error wrapped by the pipeline, exactly
the four Phase 1 capabilities were invoked, and no Phase 2 capability
(schema, image prompt, embeddings) and no Phase 3 capability (validator)
is ever invoked. -/
theorem phase1_failure_stops_pipeline (env : AgentEnv) (content : String)
    (c : Capability) (e : AgentFailure)
    (h : firstPhase1Failure env = some (c, e)) :
    (processMarkdownWithAI env content).result = .error (.pipelineFailed c e) ∧
    (processMarkdownWithAI env content).invoked =
      [Capability.summary, Capability.seo, Capability.category, Capability.tags] ∧
    Capability.schema ∉ (processMarkdownWithAI env content).invoked ∧
    Capability.imagePrompt ∉ (processMarkdownWithAI env content).invoked ∧
    Capability.embeddings ∉ (processMarkdownWithAI env content).invoked ∧
    Capability.validator ∉ (processMarkdownWithAI env content).invoked := by
  rw [firstPhase1Failure] at h
  unfold processMarkdownWithAI
  cases h1 : generateSummaries env.summariesResp <;>
  cases h2 : generateSEOMetadata env.seoResp <;>
  cases h3 : categorizeContent env.categoryResp <;>
  cases h4 : generateTags env.tagsResp <;>
  simp only [h1, h2, h3, h4, Option.some.injEq, Prod.mk.injEq] at h ⊢ <;>
  first
    | exact Option.noConfusion h
    | (obtain ⟨rfl, rfl⟩ := h
       refine ⟨rfl, ?_, ?_, ?_, ?_, ?_⟩ <;> first | trivial | decide)

/-- Witness for claim C4: with the tags agent returning JSON whose tags
field is not an array, the run fails with the tags error and only the
Phase 1 capabilities were invoked. -/
theorem phase1_failure_stops_pipeline_witness :
    (processMarkdownWithAI envTagsFail "A markdown document").result =
      .error (.pipelineFailed .tags .tagsNotArray) ∧
    (processMarkdownWithAI envTagsFail "A markdown document").invoked =
      [Capability.summary, Capability.seo, Capability.category, Capability.tags] ∧
    Capability.schema ∉ (processMarkdownWithAI envTagsFail "A markdown document").invoked ∧
    Capability.imagePrompt ∉ (processMarkdownWithAI envTagsFail "A markdown document").invoked ∧
    Capability.embeddings ∉ (processMarkdownWithAI envTagsFail "A markdown document").invoked ∧
    Capability.validator ∉ (processMarkdownWithAI envTagsFail "A markdown document").invoked :=
  phase1_failure_stops_pipeline envTagsFail "A markdown document" .tags .tagsNotArray
    (by decide)

/-- Claim C5: every embedding accepted by generateEmbeddings has exactly
3072 components (rational components stand in for the finite numbers a
JSON provider response can carry), and a provider vector of any other
length is rejected with the dimension mismatch error. -/
theorem generateEmbeddings_dimension_check :
    (∀ (content : String) (resp : Option (List ℚ)) (v : List ℚ),
        generateEmbeddings content resp = .ok v → v.length = 3072) ∧
    (∀ (content : String) (emb : List ℚ),
        (cleanContent content).isEmpty = false → emb.length ≠ 3072 →
        generateEmbeddings content (some emb) = .error (.dimensionMismatch emb.length)) := by
  constructor
  · intro content resp v h
    cases resp with
    | none =>
      simp only [generateEmbeddings] at h
      split at h <;> exact Except.noConfusion h
    | some emb =>
      simp only [generateEmbeddings] at h
      split at h
      · exact Except.noConfusion h
      · split at h
        · exact Except.noConfusion h
        · rename_i hlen
          rw [Except.ok.injEq] at h
          subst h
          exact not_ne_iff.mp hlen
  · intro content emb hne hlen
    simp [generateEmbeddings, hne, hlen]

lemma generateEmbeddings_accepts (content : String) (emb : List ℚ)
    (hne : (cleanContent content).isEmpty = false) (hlen : emb.length = 3072) :
    generateEmbeddings content (some emb) = .ok emb := by
  simp [generateEmbeddings, hne, hlen]

/-- Witness for claim C5: a 3072-component response is accepted with
length 3072, and a 2-component response is rejected. -/
theorem generateEmbeddings_dimension_check_witness :
    (List.replicate 3072 ((1 : ℚ) / 2)).length = 3072 ∧
    generateEmbeddings "hello world" (some [1, 2]) = .error (.dimensionMismatch 2) :=
  ⟨generateEmbeddings_dimension_check.1 "hello world"
      (some (List.replicate 3072 ((1 : ℚ) / 2))) (List.replicate 3072 ((1 : ℚ) / 2))
      (generateEmbeddings_accepts "hello world" (List.replicate 3072 ((1 : ℚ) / 2))
        (by decide) (List.length_replicate 3072 ((1 : ℚ) / 2))),
   generateEmbeddings_dimension_check.2 "hello world" [1, 2] (by decide) (by decide)⟩

/-- Claim C6: the vector search returns at most match_count rows, every
returned row has similarity strictly above the threshold, rows are
ordered by descending similarity, the SQL defaults are threshold 0.5 and
count 10, and semanticSearch invokes the search with its effective
threshold and limit on the embedded query. -/
theorem search_modules_by_embedding_contract :
    (∀ (dist : List ℚ → List ℚ → ℚ) (modules : List ModuleRecord)
        (embeddings : List EmbeddingRow) (query : List ℚ) (threshold : ℚ) (count : ℕ),
        (search_modules_by_embedding dist modules embeddings query threshold count).length ≤
          count ∧
        (∀ r ∈ search_modules_by_embedding dist modules embeddings query threshold count,
          threshold < r.2) ∧
        List.Pairwise (fun r s => s.2 ≤ r.2)
          (search_modules_by_embedding dist modules embeddings query threshold count)) ∧
    defaultMatchThreshold = 1 / 2 ∧ defaultMatchCount = 10 ∧
    (∀ q : String, searchThresholdOf ⟨q, none, none⟩ = defaultMatchThreshold ∧
        searchLimitOf ⟨q, none, none⟩ = defaultMatchCount) ∧
    (∀ (dist : List ℚ → List ℚ → ℚ) (modules : List ModuleRecord)
        (embeddings : List EmbeddingRow) (resp : Option (List ℚ))
        (input : SemanticSearchInput) (qe : List ℚ),
        generateEmbeddings input.query resp = .ok qe →
        semanticSearch dist modules embeddings resp input =
          .ok ((search_modules_by_embedding dist modules embeddings qe
            (searchThresholdOf input) (searchLimitOf input)).map Prod.fst)) := by
  refine ⟨fun dist modules embeddings query threshold count => ⟨?_, ?_, ?_⟩,
    by norm_num [defaultMatchThreshold], rfl, fun q => ⟨rfl, rfl⟩, ?_⟩
  · simp only [search_modules_by_embedding, List.length_map, List.length_take]
    exact min_le_left _ _
  · intro r hr
    simp only [search_modules_by_embedding, List.mem_map] at hr
    obtain ⟨p, hp, rfl⟩ := hr
    have hp2 := List.mem_of_mem_take hp
    rw [List.mem_insertionSort] at hp2
    have hd := (List.mem_filter.mp hp2).2
    exact of_decide_eq_true hd
  · simp only [search_modules_by_embedding]
    refine List.pairwise_map.mpr ?_
    have hs := List.sorted_insertionSort (distAscending dist query)
      ((innerJoinEmbeddings modules embeddings).filter
        (fun p => decide (threshold < 1 - dist p.2 query)))
    have ht := hs.sublist (List.take_sublist count _)
    exact ht.imp (fun hab => sub_le_sub_left hab 1)
  · intro dist modules embeddings resp input qe h
    simp only [semanticSearch, h]

/-- Witness for claim C6: a one-module index searched with the fixture
distance at threshold one half returns one row whose similarity 1
exceeds the threshold. -/
theorem search_modules_by_embedding_contract_witness :
    (search_modules_by_embedding l1dist [testModuleA] [testEmbRowA] [1] (1 / 2) 10).length ≤
      10 ∧
    (1 : ℚ) / 2 < (testModuleA, (1 : ℚ)).2 ∧
    semanticSearch l1dist [testModuleA] [testEmbRowA] (some (List.replicate 3072 1))
        ⟨"hello world", none, none⟩ =
      .ok ((search_modules_by_embedding l1dist [testModuleA] [testEmbRowA]
        (List.replicate 3072 1) (searchThresholdOf ⟨"hello world", none, none⟩)
        (searchLimitOf ⟨"hello world", none, none⟩)).map Prod.fst) :=
  ⟨(search_modules_by_embedding_contract.1 l1dist [testModuleA] [testEmbRowA]
      [1] (1 / 2) 10).1,
   (search_modules_by_embedding_contract.1 l1dist [testModuleA] [testEmbRowA]
      [1] (1 / 2) 10).2.1 (testModuleA, 1)
      (by norm_num [search_modules_by_embedding, innerJoinEmbeddings, testEmbRowA,
            testModuleA, List.insertionSort, List.orderedInsert, l1dist]),
   search_modules_by_embedding_contract.2.2.2.2 l1dist [testModuleA] [testEmbRowA]
      (some (List.replicate 3072 1)) ⟨"hello world", none, none⟩ (List.replicate 3072 1)
      (generateEmbeddings_accepts "hello world" (List.replicate 3072 1) (by decide)
        (List.length_replicate 3072 1))⟩

lemma dotProduct_self_nonneg (a : List ℝ) : 0 ≤ dotProduct a a := by
  induction a with
  | nil => simp [dotProduct]
  | cons x l ih => simpa [dotProduct] using add_nonneg (mul_self_nonneg x) ih

lemma dotProduct_comm (a b : List ℝ) : dotProduct a b = dotProduct b a := by
  unfold dotProduct
  exact congrArg List.sum (List.zipWith_comm_of_comm _ mul_comm a b)

/-- Claim C7, counterexample: the cosine similarity of the zero vector
with itself is a division by a zero norm, not 1 (the TypeScript value is
NaN; in the real-valued model the division yields 0). -/
theorem cosineSimilarity_zero_vector_counterexample :
    cosineSimilarity [(0 : ℝ)] [(0 : ℝ)] = .ok 0 ∧ (0 : ℝ) ≠ 1 := by
  constructor
  · simp [cosineSimilarity, dotProduct]
  · norm_num

/-- Claim C7 (amended): for every vector with a nonzero norm the cosine
similarity with itself is exactly 1, similarity is symmetric for all
pairs of vectors, and vectors of mismatched lengths are rejected. -/
theorem cosineSimilarity_properties :
    (∀ a : List ℝ, dotProduct a a ≠ 0 → cosineSimilarity a a = .ok 1) ∧
    (∀ a b : List ℝ, cosineSimilarity a b = cosineSimilarity b a) ∧
    (∀ a b : List ℝ, a.length ≠ b.length →
      cosineSimilarity a b = .error .mismatchedDimensions) := by
  refine ⟨?_, ?_, ?_⟩
  · intro a ha
    have hnn := dotProduct_self_nonneg a
    rw [cosineSimilarity, if_neg (by simp)]
    rw [Real.mul_self_sqrt hnn, div_self ha]
  · intro a b
    by_cases hl : a.length = b.length
    · rw [cosineSimilarity, cosineSimilarity, if_neg (by simp [hl]),
        if_neg (by simp [hl.symm])]
      rw [dotProduct_comm a b, mul_comm]
    · rw [cosineSimilarity, cosineSimilarity, if_pos hl,
        if_pos (fun hh => hl hh.symm)]
  · intro a b h
    rw [cosineSimilarity, if_pos h]

/-- Witness for the amended claim C7: a concrete unit vector has self
similarity 1, and a one-component vector compared with a two-component
vector is rejected. -/
theorem cosineSimilarity_properties_witness :
    cosineSimilarity [(1 : ℝ), 0] [(1 : ℝ), 0] = .ok 1 ∧
    cosineSimilarity [(1 : ℝ)] [(1 : ℝ), 0] = .error .mismatchedDimensions :=
  ⟨cosineSimilarity_properties.1 [1, 0] (by norm_num [dotProduct]),
   cosineSimilarity_properties.2.2 [1] [1, 0] (by simp)⟩

/-- Claim C8: for every non-negative integer count, the estimated total
is exactly the per-module cost times the count, and the per-module cost
is the sum of the eight static per-capability cost constants. -/
theorem estimateProcessingCost_total_eq :
    ∀ n : ℕ,
      (estimateProcessingCost n).total = (estimateProcessingCost n).perModule * (n : ℚ) ∧
      (estimateProcessingCost n).perModule =
        COST_ESTIMATES.summary + COST_ESTIMATES.seo + COST_ESTIMATES.category +
          COST_ESTIMATES.tags + COST_ESTIMATES.schema + COST_ESTIMATES.imagePrompt +
          COST_ESTIMATES.embeddings + COST_ESTIMATES.validator := by
  intro n
  refine ⟨rfl, ?_⟩
  norm_num [estimateProcessingCost, costValues, COST_ESTIMATES, List.foldl]

/-- Claim C9: when the successful pipeline result scores below 70,
createModule throws before attempting any database insert, and every
module row it ever hands to an insert carries a quality score of at
least 70. -/
theorem createModule_quality_threshold :
    (∀ (env : AgentEnv) (db : DbEnv) (input : CreateModuleInput) (q : ℚ),
        pipelineScore env input.markdownContent = some q → q < 70 →
        (createModule env db input).1 = .error (.qualityBelowThreshold q) ∧
        (createModule env db input).2 = []) ∧
    (∀ (env : AgentEnv) (db : DbEnv) (input : CreateModuleInput) (row : ModuleInsertRow),
        DbOp.insertModule row ∈ (createModule env db input).2 →
        70 ≤ row.quality_score) := by
  constructor
  · intro env db input q hq hlt
    unfold pipelineScore at hq
    cases hr : (processMarkdownWithAI env input.markdownContent).result with
    | error e =>
      rw [hr] at hq
      exact Option.noConfusion hq
    | ok r =>
      rw [hr] at hq
      rw [Option.some.injEq] at hq
      subst hq
      simp only [createModule, hr]
      rw [if_pos hlt]
      exact ⟨rfl, rfl⟩
  · intro env db input row hrow
    cases hr : (processMarkdownWithAI env input.markdownContent).result with
    | error e =>
      simp only [createModule, hr] at hrow
      exact absurd hrow (List.not_mem_nil _)
    | ok r =>
      simp only [createModule, hr] at hrow
      split at hrow
      · exact absurd hrow (List.not_mem_nil _)
      · rename_i hge
        cases hdb : db.moduleInsert with
        | error msg =>
          rw [hdb] at hrow
          simp only [List.mem_singleton, DbOp.insertModule.injEq] at hrow
          subst hrow
          exact not_lt.mp hge
        | ok module =>
          rw [hdb] at hrow
          simp only [List.mem_cons, List.not_mem_nil, or_false] at hrow
          rcases hrow with hrow | hrow | hrow
          · rw [DbOp.insertModule.injEq] at hrow
            subst hrow
            exact not_lt.mp hge
          · exact DbOp.noConfusion hrow
          · exact DbOp.noConfusion hrow

/-- Witness for claim C9: with the validator scoring the fixture document
at 50, createModule throws the threshold error and performs no insert. -/
theorem createModule_quality_threshold_witness :
    (createModule envLowScore testDb testCreateInput).1 =
      .error (.qualityBelowThreshold 50) ∧
    (createModule envLowScore testDb testCreateInput).2 = [] := by
  have h1 : generateSummaries envLowScore.summariesResp =
      .ok ⟨"Short summary.", "Medium summary with more detail.",
        "Long summary paragraph with comprehensive detail for testing."⟩ := by decide
  have h2 : generateSEOMetadata envLowScore.seoResp =
      .ok ⟨"Test Title", "Test description.", "alpha, beta, gamma"⟩ := by decide
  have h3 : categorizeContent envLowScore.categoryResp =
      .ok ⟨"Technology", 1, "clear fit"⟩ := by decide
  have h4 : generateTags envLowScore.tagsResp = .ok ["ai", "ml", "data"] := by decide
  have h5 : generateSchemaOrgData envLowScore.today envLowScore.schemaResp =
      .ok ⟨"https://schema.org", "Article", "2025-01-01", []⟩ := by decide
  have h6 : generateImagePrompt envLowScore.imagePromptResp =
      .ok ⟨"Isometric illustration of data pipelines in vibrant colors", "modern"⟩ := by
    decide
  have hemb : generateEmbeddings testCreateInput.markdownContent
      envLowScore.embeddingResp = .ok (List.replicate 3072 1) :=
    generateEmbeddings_accepts "# A test document with content" (List.replicate 3072 1)
      (by decide) (List.length_replicate 3072 1)
  have h8 : validateMetadata testCreateInput.markdownContent
      ⟨⟨"Short summary.", "Medium summary with more detail.",
        "Long summary paragraph with comprehensive detail for testing."⟩,
       ⟨"Test Title", "Test description.", "alpha, beta, gamma"⟩,
       ⟨"Technology", 1, "clear fit"⟩, ["ai", "ml", "data"],
       ⟨"https://schema.org", "Article", "2025-01-01", []⟩,
       ⟨"Isometric illustration of data pipelines in vibrant colors", "modern"⟩⟩
      envLowScore.validatorResp = .ok ⟨50, false, testReport⟩ := by decide
  have hscore : pipelineScore envLowScore testCreateInput.markdownContent = some 50 := by
    simp only [pipelineScore, processMarkdownWithAI, h1, h2, h3, h4, h5, h6, hemb, h8]
  exact createModule_quality_threshold.1 envLowScore testDb testCreateInput 50 hscore
    (by norm_num)

/-- Claim C10: semanticSearch substitutes the defaults for every falsy
parameter: an explicit threshold 0 becomes 0.5, an explicit limit 0
becomes 10, so searching with both zeros behaves exactly like searching
with both parameters omitted. -/
theorem semanticSearch_falsy_defaults :
    (∀ (q : String) (l : Option ℕ), searchThresholdOf ⟨q, l, some 0⟩ = 1 / 2) ∧
    (∀ (q : String) (t : Option ℚ), searchLimitOf ⟨q, some 0, t⟩ = 10) ∧
    (∀ (dist : List ℚ → List ℚ → ℚ) (modules : List ModuleRecord)
        (embeddings : List EmbeddingRow) (resp : Option (List ℚ)) (q : String),
        semanticSearch dist modules embeddings resp ⟨q, some 0, some 0⟩ =
          semanticSearch dist modules embeddings resp ⟨q, none, none⟩) := by
  refine ⟨?_, ?_, ?_⟩
  · intro q l
    norm_num [searchThresholdOf, jsOrQ]
  · intro q t
    rfl
  · intro dist modules embeddings resp q
    have h1 : searchThresholdOf ⟨q, some 0, some 0⟩ = searchThresholdOf ⟨q, none, none⟩ := by
      norm_num [searchThresholdOf, jsOrQ]
    have h2 : searchLimitOf ⟨q, some 0, some 0⟩ = searchLimitOf ⟨q, none, none⟩ := rfl
    simp only [semanticSearch, h1, h2]

end Cpv2
